import Mathlib

/-!
Verification of the sales-forecast lookup engine.

The development shallowly embeds the tabular operations of the application:
the per-item lookup `predict_sales`, the diverse sampler `get_sample_items`
and the option list assembled for the selection widget.  Rows are records of
an item identifier, a shop identifier and a forecast quantity; quantities are
modelled as exact rationals.  Sorting in descending quantity order is modelled
by the stable `List.insertionSort` with a greater-or-equal comparison, which
matches the stable ranking of the host library used by the program.
-/

namespace SalesApp

/-- One row of the prediction table: an item, a shop and the forecast
quantity for that pair. -/
structure PredictionRow where
  item_id : Int
  shop_id : Int
  item_cnt_month : ℚ
  deriving DecidableEq

/-- The prediction table is an ordered sequence of rows. -/
abbrev PredictionTable := List PredictionRow

/-- Descending comparison on forecast quantity: `quantityGE a b` holds when
the quantity of `a` is at least the quantity of `b`. -/
def quantityGE (a b : PredictionRow) : Prop :=
  b.item_cnt_month ≤ a.item_cnt_month

instance : DecidableRel quantityGE :=
  fun a b => inferInstanceAs (Decidable (b.item_cnt_month ≤ a.item_cnt_month))

instance : IsTotal PredictionRow quantityGE :=
  ⟨fun a b => le_total b.item_cnt_month a.item_cnt_month⟩

instance : IsTrans PredictionRow quantityGE :=
  ⟨fun _ _ _ hab hbc => le_trans hbc hab⟩

/-- The rows of the table whose item identifier matches the query
(`df[df['item_id'] == item_id]`). -/
def matchRows (df : PredictionTable) (item_id : Int) : List PredictionRow :=
  df.filter (fun r => r.item_id == item_id)

/-- Sum of the forecast quantities of the matching rows
(`item_predictions['item_cnt_month'].sum()`). -/
def total_sales (df : PredictionTable) (item_id : Int) : ℚ :=
  ((matchRows df item_id).map PredictionRow.item_cnt_month).sum

/-- Number of matching rows (`len(item_predictions)`). -/
def n_shops (df : PredictionTable) (item_id : Int) : Nat :=
  (matchRows df item_id).length

/-- Average quantity per shop, guarded against an empty selection
(`total_sales / n_shops if n_shops > 0 else 0`). -/
def avg_per_shop (df : PredictionTable) (item_id : Int) : ℚ :=
  if 0 < n_shops df item_id then total_sales df item_id / (n_shops df item_id : ℚ) else 0

/-- The five rows with the largest quantities, in non-increasing order, with
tied rows kept in original order (`nlargest(5, 'item_cnt_month')`). -/
def nlargest5 (l : List PredictionRow) : List PredictionRow :=
  (List.insertionSort quantityGE l).take 5

/-- The ranked shop table of a successful lookup: the top rows reduced to
`(shop_id, item_cnt_month)` pairs. -/
def top_shops (df : PredictionTable) (item_id : Int) : List (Int × ℚ) :=
  (nlargest5 (matchRows df item_id)).map (fun r => (r.shop_id, r.item_cnt_month))

/-- The summary produced by a successful lookup. -/
structure PredictionSummary where
  total_sales : ℚ
  n_shops : Nat
  avg_per_shop : ℚ
  top_shops : List (Int × ℚ)
  deriving DecidableEq

/-- The lookup operation: `None` when no row matches, otherwise the summary
record assembled by the program. -/
def predict_sales (df : PredictionTable) (item_id : Int) : Option PredictionSummary :=
  if (matchRows df item_id).length = 0 then
    none
  else
    some ⟨total_sales df item_id, n_shops df item_id,
      avg_per_shop df item_id, top_shops df item_id⟩

/-- The distinct item identifiers of the table in ascending order — the group
keys of `df.groupby('item_id')`, which sorts its keys. -/
def itemKeys (df : PredictionTable) : List Int :=
  List.insertionSort (· ≤ ·) (df.map PredictionRow.item_id).dedup

/-- Aggregate forecast total of one item across all shops. -/
def item_total (df : PredictionTable) (i : Int) : ℚ :=
  ((df.filter (fun r => r.item_id == i)).map PredictionRow.item_cnt_month).sum

/-- The per-item aggregate table produced by
`df.groupby('item_id')['item_cnt_month'].sum()`: one `(item, total)` pair per
distinct item, keys ascending. -/
def item_totals (df : PredictionTable) : List (Int × ℚ) :=
  (itemKeys df).map (fun i => (i, item_total df i))

/-- Descending comparison on aggregate totals. -/
def totalsGE (a b : Int × ℚ) : Prop :=
  b.2 ≤ a.2

instance : DecidableRel totalsGE :=
  fun a b => inferInstanceAs (Decidable (b.2 ≤ a.2))

instance : IsTotal (Int × ℚ) totalsGE :=
  ⟨fun a b => le_total b.2 a.2⟩

instance : IsTrans (Int × ℚ) totalsGE :=
  ⟨fun _ _ _ hab hbc => le_trans hbc hab⟩

/-- The per-item totals sorted in non-increasing order
(`sort_values('item_cnt_month', ascending=False)`). -/
def sorted_totals (df : PredictionTable) : List (Int × ℚ) :=
  List.insertionSort totalsGE (item_totals df)

/-- The first three items of the descending order (`head(3)`). -/
def top_items (df : PredictionTable) : List Int :=
  ((sorted_totals df).take 3).map Prod.fst

/-- Four consecutive items of the descending order starting at the middle
index (`iloc[len//2 : len//2+4]`). -/
def mid_items (df : PredictionTable) : List Int :=
  (((sorted_totals df).drop ((sorted_totals df).length / 2)).take 4).map Prod.fst

/-- The last three items of the descending order (`tail(3)`). -/
def low_items (df : PredictionTable) : List Int :=
  ((sorted_totals df).drop ((sorted_totals df).length - 3)).map Prod.fst

/-- The diverse sample: top sellers, middle band and the tail of the
descending order, concatenated.  The parameter `n` appears in the program's
signature with default 10 but is never read by the body. -/
def get_sample_items (df : PredictionTable) (n : Nat) : List Int :=
  top_items df ++ mid_items df ++ low_items df

/-- All distinct item identifiers in ascending order
(`sorted(df['item_id'].unique().tolist())`). -/
def all_items (df : PredictionTable) : List Int :=
  List.insertionSort (· ≤ ·) (df.map PredictionRow.item_id).dedup

/-- The option list of the selection widget:
`[0] + sample_items + [item for item in all_items if item not in sample_items]`. -/
def options (df : PredictionTable) : List Int :=
  0 :: (get_sample_items df 10
    ++ (all_items df).filter (fun i => !((get_sample_items df 10).contains i)))

/-- The three-row example table of the specification. -/
def exTable : PredictionTable :=
  [⟨1, 10, 5⟩, ⟨1, 11, 3⟩, ⟨2, 10, 1⟩]

/-- The summary the lookup produces on `exTable` for item 1. -/
def exSummary : PredictionSummary :=
  ⟨8, 2, 4, [(10, 5), (11, 3)]⟩

/-- The twenty-item example table: items 1..20, one row each, with distinct
totals 1..20. -/
def ex20 : PredictionTable :=
  [⟨1, 0, 1⟩, ⟨2, 0, 2⟩, ⟨3, 0, 3⟩, ⟨4, 0, 4⟩, ⟨5, 0, 5⟩,
   ⟨6, 0, 6⟩, ⟨7, 0, 7⟩, ⟨8, 0, 8⟩, ⟨9, 0, 9⟩, ⟨10, 0, 10⟩,
   ⟨11, 0, 11⟩, ⟨12, 0, 12⟩, ⟨13, 0, 13⟩, ⟨14, 0, 14⟩, ⟨15, 0, 15⟩,
   ⟨16, 0, 16⟩, ⟨17, 0, 17⟩, ⟨18, 0, 18⟩, ⟨19, 0, 19⟩, ⟨20, 0, 20⟩]

/-- A two-item table on which the option list keeps duplicates and is not
ascending after the sentinel. -/
def exTwo : PredictionTable :=
  [⟨1, 5, 1⟩, ⟨2, 5, 2⟩]

/-- A row belongs to the matching selection exactly when it belongs to the
table and carries the queried item identifier. -/
theorem mem_matchRows {df : PredictionTable} {i : Int} {r : PredictionRow} :
    r ∈ matchRows df i ↔ r ∈ df ∧ r.item_id = i := by
  simp [matchRows, List.mem_filter]

/-- Unfolding a successful lookup into its components. -/
theorem predict_sales_eq_some {df : PredictionTable} {i : Int} {s : PredictionSummary}
    (h : predict_sales df i = some s) :
    matchRows df i ≠ [] ∧ s.total_sales = total_sales df i ∧ s.n_shops = n_shops df i
      ∧ s.avg_per_shop = avg_per_shop df i ∧ s.top_shops = top_shops df i := by
  unfold predict_sales at h
  split at h
  · exact absurd h (by simp)
  · next hc =>
    cases h
    exact ⟨fun hnil => hc (by rw [hnil]; rfl), rfl, rfl, rfl, rfl⟩

/-- A stable sort does not reorder the elements of one tie class: filtering
the sorted list by a predicate that relates any two of its members both ways
gives the same list as filtering the input. -/
theorem filter_insertionSort_eq_filter {α : Type} (r : α → α → Prop) [DecidableRel r]
    (p : α → Bool) (hp : ∀ a b, p a = true → p b = true → r a b) (l : List α) :
    (List.insertionSort r l).filter p = l.filter p := by
  have hperm : List.Perm ((List.insertionSort r l).filter p) (l.filter p) :=
    (List.perm_insertionSort r l).filter p
  have hpw : (l.filter p).Pairwise r :=
    List.pairwise_of_forall_mem_list fun a ha b hb =>
      hp a b (List.of_mem_filter ha) (List.of_mem_filter hb)
  have h1 : List.Sublist (l.filter p) (List.insertionSort r l) :=
    List.sublist_insertionSort hpw (List.filter_sublist l)
  have h2 : List.Sublist ((l.filter p).filter p) ((List.insertionSort r l).filter p) :=
    h1.filter p
  rw [List.filter_eq_self.mpr fun a ha => List.of_mem_filter ha] at h2
  exact (h2.eq_of_length hperm.length_eq.symm).symm

/-- Filtering the shop/quantity pairs by quantity commutes with projecting
rows to pairs. -/
theorem filter_map_pair (q : ℚ) : ∀ X : List PredictionRow,
    ((X.map fun r => (r.shop_id, r.item_cnt_month)).filter fun pr => decide (pr.2 = q))
      = (X.filter fun r => decide (r.item_cnt_month = q)).map
          fun r => (r.shop_id, r.item_cnt_month)
  | [] => rfl
  | x :: X => by
    by_cases hx : x.item_cnt_month = q <;>
      simp [hx, List.filter_cons, filter_map_pair q X]

/-- Every entry of the descending total table is a group key paired with its
aggregate total. -/
theorem mem_sorted_totals {df : PredictionTable} {p : Int × ℚ}
    (hp : p ∈ sorted_totals df) : p.1 ∈ itemKeys df ∧ p.2 = item_total df p.1 := by
  have hmem : p ∈ item_totals df := (List.mem_insertionSort _).mp hp
  obtain ⟨k, hk, hkp⟩ := List.mem_map.mp hmem
  cases hkp
  exact ⟨hk, rfl⟩

/-- Every group key is the item identifier of some row of the table. -/
theorem exists_row_of_mem_itemKeys {df : PredictionTable} {k : Int}
    (hk : k ∈ itemKeys df) : ∃ r ∈ df, r.item_id = k := by
  have : k ∈ (df.map PredictionRow.item_id).dedup := (List.mem_insertionSort _).mp hk
  obtain ⟨r, hr, hrk⟩ := List.mem_map.mp (List.mem_dedup.mp this)
  exact ⟨r, hr, hrk⟩

/-- Evaluation of the lookup on the specification's example table. -/
theorem exTable_lookup : predict_sales exTable 1 = some exSummary := by
  norm_num [predict_sales, matchRows, total_sales, n_shops, avg_per_shop, top_shops,
    nlargest5, List.insertionSort, List.orderedInsert, quantityGE, exTable, exSummary]

set_option maxHeartbeats 4000000 in
/-- Evaluation of the bottom group on the twenty-item example table. -/
theorem low_items_ex20_eval : low_items ex20 = [3, 2, 1] := by
  norm_num [low_items, sorted_totals, item_totals, itemKeys, item_total,
    List.insertionSort, List.orderedInsert, totalsGE, ex20, List.dedup]

/-- Evaluation of the option list on the two-item example table. -/
theorem options_exTwo_eval : options exTwo = [0, 2, 1, 1, 2, 1] := by
  norm_num [options, get_sample_items, top_items, mid_items, low_items, all_items,
    sorted_totals, item_totals, itemKeys, item_total,
    List.insertionSort, List.orderedInsert, totalsGE, exTwo, List.dedup]

/-- C1: for every table and every item identifier appearing in at least one
row, the lookup succeeds; its shop count is the number of matching rows and
its total is the exact arithmetic sum of their forecast quantities. -/
theorem predict_sales_found (df : PredictionTable) (i : Int)
    (h : ∃ r ∈ df, r.item_id = i) :
    ∃ s : PredictionSummary, predict_sales df i = some s
      ∧ s.n_shops = (matchRows df i).length
      ∧ s.total_sales = ((matchRows df i).map PredictionRow.item_cnt_month).sum := by
  obtain ⟨r, hr, hri⟩ := h
  have hm : r ∈ matchRows df i := mem_matchRows.mpr ⟨hr, hri⟩
  have hne : (matchRows df i).length ≠ 0 := by
    intro h0
    rw [List.length_eq_zero] at h0
    rw [h0] at hm
    exact (List.not_mem_nil r) hm
  refine ⟨⟨total_sales df i, n_shops df i, avg_per_shop df i, top_shops df i⟩, ?_, rfl, rfl⟩
  unfold predict_sales
  rw [if_neg hne]

/-- Witness for C1 on the example table. -/
theorem predict_sales_found_witness :
    ∃ s : PredictionSummary, predict_sales exTable 1 = some s
      ∧ s.n_shops = (matchRows exTable 1).length
      ∧ s.total_sales = ((matchRows exTable 1).map PredictionRow.item_cnt_month).sum :=
  predict_sales_found exTable 1 ⟨⟨1, 10, 5⟩, by decide, rfl⟩

/-- C2: the lookup reports not-found exactly when no row of the table carries
the queried item identifier; there is no other failure. -/
theorem predict_sales_none_iff (df : PredictionTable) (i : Int) :
    predict_sales df i = none ↔ ∀ r ∈ df, r.item_id ≠ i := by
  have hiff : (matchRows df i).length = 0 ↔ ∀ r ∈ df, r.item_id ≠ i := by
    rw [List.length_eq_zero]
    simp [matchRows, List.filter_eq_nil_iff]
  unfold predict_sales
  by_cases hc : (matchRows df i).length = 0
  · simp only [if_pos hc, true_iff]
    exact hiff.mp hc
  · simp only [if_neg hc]
    constructor
    · intro h
      exact absurd h (by simp)
    · intro hall
      exact absurd (hiff.mpr hall) hc

/-- C3: on a successful lookup the ranked shop table has length
`min 5 shop_count`, all its pairs come from matching rows, its quantities are
non-increasing, and pairs of equal quantity keep the original relative order
of their rows: the filtered ranked table is an initial segment of the
correspondingly filtered matching rows. -/
theorem predict_sales_top_shops_spec (df : PredictionTable) (i : Int)
    (s : PredictionSummary) (h : predict_sales df i = some s) :
    s.top_shops.length = min 5 s.n_shops
    ∧ (∀ p ∈ s.top_shops, ∃ r ∈ df, r.item_id = i ∧ r.shop_id = p.1 ∧ r.item_cnt_month = p.2)
    ∧ List.Sorted (· ≥ ·) (s.top_shops.map Prod.snd)
    ∧ ∀ q : ℚ, ∃ rest,
        (s.top_shops.filter fun pr => decide (pr.2 = q)) ++ rest
          = ((matchRows df i).map fun r => (r.shop_id, r.item_cnt_month)).filter
              fun pr => decide (pr.2 = q) := by
  obtain ⟨-, -, hn, -, ht⟩ := predict_sales_eq_some h
  rw [hn, ht]
  refine ⟨?_, ?_, ?_, ?_⟩
  · simp [top_shops, nlargest5, n_shops, List.length_take, List.length_insertionSort]
  · intro p hp
    obtain ⟨r, hr5, hrp⟩ := List.mem_map.mp hp
    have hr : r ∈ matchRows df i :=
      (List.mem_insertionSort _).mp (List.mem_of_mem_take hr5)
    obtain ⟨hrdf, hri⟩ := mem_matchRows.mp hr
    exact ⟨r, hrdf, hri, by rw [← hrp], by rw [← hrp]⟩
  · have hs : List.Pairwise quantityGE
        ((List.insertionSort quantityGE (matchRows df i)).take 5) :=
      List.Pairwise.sublist (List.take_sublist 5 _)
        (List.sorted_insertionSort quantityGE (matchRows df i))
    simp only [top_shops, nlargest5, List.map_map]
    rw [List.Sorted, List.pairwise_map]
    exact hs.imp fun hab => hab
  · intro q
    have hkey : ∀ a b : PredictionRow, decide (a.item_cnt_month = q) = true →
        decide (b.item_cnt_month = q) = true → quantityGE a b := by
      intro a b ha hb
      rw [decide_eq_true_iff] at ha hb
      unfold quantityGE
      rw [ha, hb]
    have e1 := filter_map_pair q ((List.insertionSort quantityGE (matchRows df i)).take 5)
    have e3 := filter_map_pair q (matchRows df i)
    have e4 : (List.insertionSort quantityGE (matchRows df i)).filter
          (fun r => decide (r.item_cnt_month = q))
        = (matchRows df i).filter (fun r => decide (r.item_cnt_month = q)) :=
      filter_insertionSort_eq_filter quantityGE _ hkey _
    refine ⟨(((List.insertionSort quantityGE (matchRows df i)).drop 5).filter
        (fun r => decide (r.item_cnt_month = q))).map
        (fun r => (r.shop_id, r.item_cnt_month)), ?_⟩
    simp only [top_shops, nlargest5]
    rw [e1, e3, ← List.map_append, ← List.filter_append, List.take_append_drop, e4]

/-- Witness for C3 on the example table. -/
theorem predict_sales_top_shops_witness :
    exSummary.top_shops.length = min 5 exSummary.n_shops
    ∧ (∀ p ∈ exSummary.top_shops,
        ∃ r ∈ exTable, r.item_id = 1 ∧ r.shop_id = p.1 ∧ r.item_cnt_month = p.2)
    ∧ List.Sorted (· ≥ ·) (exSummary.top_shops.map Prod.snd)
    ∧ ∀ q : ℚ, ∃ rest,
        (exSummary.top_shops.filter fun pr => decide (pr.2 = q)) ++ rest
          = ((matchRows exTable 1).map fun r => (r.shop_id, r.item_cnt_month)).filter
              fun pr => decide (pr.2 = q) :=
  predict_sales_top_shops_spec exTable 1 exSummary exTable_lookup

/-- C8: the average is computed through a guard that yields 0 for an empty
selection; on a successful lookup the selection is non-empty, so the guarded
branch is taken and the average is the exact quotient of total by count. -/
theorem avg_per_shop_guarded (df : PredictionTable) (i : Int) (s : PredictionSummary)
    (h : predict_sales df i = some s) :
    (∀ df2 : PredictionTable, ∀ i2 : Int, n_shops df2 i2 = 0 → avg_per_shop df2 i2 = 0)
    ∧ 0 < s.n_shops
    ∧ s.avg_per_shop = s.total_sales / (s.n_shops : ℚ) := by
  obtain ⟨hne, hts, hn, havg, -⟩ := predict_sales_eq_some h
  have hp : 0 < n_shops df i := List.length_pos.mpr hne
  refine ⟨?_, ?_, ?_⟩
  · intro df2 i2 h0
    unfold avg_per_shop
    rw [h0]
    simp
  · rw [hn]
    exact hp
  · rw [havg, hts, hn]
    unfold avg_per_shop
    rw [if_pos hp]

/-- Witness for C8 on the example table. -/
theorem avg_per_shop_guarded_witness :
    (∀ df2 : PredictionTable, ∀ i2 : Int, n_shops df2 i2 = 0 → avg_per_shop df2 i2 = 0)
    ∧ 0 < exSummary.n_shops
    ∧ exSummary.avg_per_shop = exSummary.total_sales / (exSummary.n_shops : ℚ) :=
  avg_per_shop_guarded exTable 1 exSummary exTable_lookup

/-- C9: over exact rational arithmetic the reported average times the shop
count equals the reported total exactly. -/
theorem avg_mul_shops_eq_total (df : PredictionTable) (i : Int) (s : PredictionSummary)
    (h : predict_sales df i = some s) :
    s.avg_per_shop * (s.n_shops : ℚ) = s.total_sales := by
  obtain ⟨hne, hts, hn, havg, -⟩ := predict_sales_eq_some h
  have hp : 0 < n_shops df i := List.length_pos.mpr hne
  rw [havg, hts, hn]
  unfold avg_per_shop
  rw [if_pos hp]
  have hcast : ((n_shops df i : ℚ)) ≠ 0 := by
    exact_mod_cast Nat.pos_iff_ne_zero.mp hp
  exact div_mul_cancel₀ _ hcast

/-- Witness for C9 on the example table. -/
theorem avg_mul_shops_eq_total_witness :
    exSummary.avg_per_shop * (exSummary.n_shops : ℚ) = exSummary.total_sales :=
  avg_mul_shops_eq_total exTable 1 exSummary exTable_lookup

/-- C4 counterexample: on the twenty-item table with distinct totals 1..20
the bottom group of the sample is [3, 2, 1] and not the ascending [1, 2, 3]
asserted by the claim. -/
theorem low_items_ex20_counterexample :
    low_items ex20 = [3, 2, 1] ∧ low_items ex20 ≠ [1, 2, 3] := by
  refine ⟨low_items_ex20_eval, ?_⟩
  rw [low_items_ex20_eval]
  decide

/-- C4 (amended): the bottom group consists of the up-to-3 items with the
lowest per-item aggregate totals, listed in non-increasing order of total
(the lowest-selling item last); on the 1..20 example table it is [3, 2, 1]. -/
theorem low_items_lowest_desc (df : PredictionTable) :
    (low_items df).length = min 3 (itemKeys df).length
    ∧ (∀ i ∈ low_items df, ∃ r ∈ df, r.item_id = i)
    ∧ List.Sorted (· ≥ ·) ((low_items df).map (item_total df))
    ∧ (∀ i ∈ low_items df,
        ∀ p ∈ (sorted_totals df).take ((sorted_totals df).length - 3),
          item_total df i ≤ p.2)
    ∧ low_items ex20 = [3, 2, 1] := by
  have hlen : (sorted_totals df).length = (itemKeys df).length := by
    simp [sorted_totals, item_totals, List.length_insertionSort]
  refine ⟨?_, ?_, ?_, ?_, low_items_ex20_eval⟩
  · simp only [low_items, List.length_map, List.length_drop, hlen]
    omega
  · intro i hi
    obtain ⟨p, hp, hpi⟩ := List.mem_map.mp hi
    obtain ⟨r, hr, hri⟩ :=
      exists_row_of_mem_itemKeys (mem_sorted_totals (List.mem_of_mem_drop hp)).1
    exact ⟨r, hr, by rw [hri, hpi]⟩
  · have hmapeq : ((((sorted_totals df).drop ((sorted_totals df).length - 3)).map
          Prod.fst).map (item_total df))
        = ((sorted_totals df).drop ((sorted_totals df).length - 3)).map Prod.snd := by
      rw [List.map_map]
      exact List.map_congr_left fun p hp =>
        ((mem_sorted_totals (List.mem_of_mem_drop hp)).2).symm
    simp only [low_items]
    rw [hmapeq, List.Sorted, List.pairwise_map]
    exact (List.Pairwise.sublist (List.drop_sublist _ _)
      (List.sorted_insertionSort totalsGE (item_totals df))).imp fun hab => hab
  · intro i hi p hp
    obtain ⟨p2, hp2, hp2i⟩ := List.mem_map.mp hi
    have hrel : totalsGE p p2 :=
      List.Sorted.rel_of_mem_take_of_mem_drop
        (List.sorted_insertionSort totalsGE (item_totals df)) hp hp2
    have hip2 : item_total df i = p2.2 := by
      rw [← hp2i]
      exact ((mem_sorted_totals (List.mem_of_mem_drop hp2)).2).symm
    rw [hip2]
    exact hrel

/-- C5: the sample is a function of the table alone, returned in the order
top group, middle group, bottom group, where the groups are slices of a
non-increasing ordering of the per-item aggregate totals: the first 3
entries, the 4 consecutive entries starting at index count/2, and the last 3
entries. -/
theorem get_sample_items_structure (df : PredictionTable) (n : Nat) :
    ∃ s : List (Int × ℚ),
      s.Perm (item_totals df)
      ∧ List.Sorted totalsGE s
      ∧ s.length = (itemKeys df).length
      ∧ (∀ p ∈ s, p.2 = item_total df p.1)
      ∧ get_sample_items df n
          = (s.take 3).map Prod.fst
            ++ ((s.drop (s.length / 2)).take 4).map Prod.fst
            ++ (s.drop (s.length - 3)).map Prod.fst := by
  refine ⟨sorted_totals df, List.perm_insertionSort _ _,
    List.sorted_insertionSort _ _, ?_, ?_, rfl⟩
  · simp [sorted_totals, item_totals, List.length_insertionSort]
  · intro p hp
    exact (mem_sorted_totals hp).2

/-- C6 counterexample: on the two-item table the option list evaluates to
[0, 2, 1, 1, 2, 1]: item 1 occurs three times, and the entries after the
sentinel are not in ascending order. -/
theorem options_exTwo_counterexample :
    (options exTwo).count 1 = 3 ∧ ¬ List.Sorted (· ≤ ·) ((options exTwo).drop 1) := by
  rw [options_exTwo_eval]
  exact ⟨by decide, by decide⟩

/-- C6 (amended): the option list is the sentinel 0 followed by the diverse
sample in sample order (possibly with duplicates), followed by the remaining
distinct item identifiers in ascending order without duplicates; every item
identifier of the table occurs in the list. -/
theorem options_structure (df : PredictionTable) :
    options df = 0 :: (get_sample_items df 10
        ++ (all_items df).filter (fun i => !((get_sample_items df 10).contains i)))
    ∧ (∀ r ∈ df, r.item_id ∈ options df)
    ∧ List.Sorted (· ≤ ·)
        ((all_items df).filter (fun i => !((get_sample_items df 10).contains i)))
    ∧ ((all_items df).filter (fun i => !((get_sample_items df 10).contains i))).Nodup := by
  refine ⟨rfl, ?_, ?_, ?_⟩
  · intro r hr
    have hall : r.item_id ∈ all_items df :=
      (List.mem_insertionSort _).mpr (List.mem_dedup.mpr (List.mem_map.mpr ⟨r, hr, rfl⟩))
    by_cases hs : r.item_id ∈ get_sample_items df 10
    · exact List.mem_cons.mpr (Or.inr (List.mem_append.mpr (Or.inl hs)))
    · refine List.mem_cons.mpr (Or.inr (List.mem_append.mpr (Or.inr ?_)))
      refine List.mem_filter.mpr ⟨hall, ?_⟩
      simp [List.contains, List.elem_iff, hs]
  · exact (List.sorted_insertionSort _ _).filter _
  · exact List.Nodup.filter _
      (((List.perm_insertionSort _ _).nodup_iff).mpr (List.nodup_dedup _))

/-- C7: for every table the sampler is total, returns at most ten entries,
and every returned entry is an item identifier occurring in the table. -/
theorem get_sample_items_bounded (df : PredictionTable) (n : Nat) :
    (get_sample_items df n).length ≤ 10
    ∧ ∀ i ∈ get_sample_items df n, ∃ r ∈ df, r.item_id = i := by
  constructor
  · simp only [get_sample_items, top_items, mid_items, low_items, List.length_append,
      List.length_map, List.length_take, List.length_drop]
    omega
  · intro i hi
    simp only [get_sample_items, top_items, mid_items, low_items, List.mem_append] at hi
    have key : ∀ p : Int × ℚ, p ∈ sorted_totals df → ∃ r ∈ df, r.item_id = p.1 :=
      fun p hp => exists_row_of_mem_itemKeys (mem_sorted_totals hp).1
    rcases hi with (hi | hi) | hi
    · obtain ⟨p, hp, hpi⟩ := List.mem_map.mp hi
      obtain ⟨r, hr, hri⟩ := key p (List.mem_of_mem_take hp)
      exact ⟨r, hr, by rw [hri, hpi]⟩
    · obtain ⟨p, hp, hpi⟩ := List.mem_map.mp hi
      obtain ⟨r, hr, hri⟩ := key p (List.mem_of_mem_drop (List.mem_of_mem_take hp))
      exact ⟨r, hr, by rw [hri, hpi]⟩
    · obtain ⟨p, hp, hpi⟩ := List.mem_map.mp hi
      obtain ⟨r, hr, hri⟩ := key p (List.mem_of_mem_drop hp)
      exact ⟨r, hr, by rw [hri, hpi]⟩

/-- C10: the size parameter of the sampler has no effect on its result: the
group sizes are fixed constants and the body never reads the parameter. -/
theorem get_sample_items_ignores_n (df : PredictionTable) (n1 n2 : Nat) :
    get_sample_items df n1 = get_sample_items df n2 := rfl

end SalesApp
